import Mathlib

/-!
Verification development for the Growatt / Spock EMS coordinator
(`custom_components/spock_ems_growatt/coordinator.py`).

The Python module is shallowly embedded as follows.

* Machine words are `Nat` (unsigned registers) and `Int` (Python integers);
  explicit masking (`& 0xFFFF`) appears exactly where the source masks.
* Python floats are modelled by exact rational arithmetic (`ℚ`).  For the
  telemetry and percentage pipelines every numeric scenario proved below
  is far away from any IEEE-754 rounding boundary, so the exact-rational
  value and the double value round to the same integer; the one irrational
  constant of the source, `math.sqrt(3)`, is embedded as the exact
  rational value of the IEEE-754 double that `math.sqrt(3)` evaluates to.
  String-to-float conversion (`float(s)`), whose overflow and rounding
  behaviour `_parse_action_w` depends on, is modelled exactly: the decimal
  value is rounded to the nearest IEEE-754 double (`toDouble`), including
  overflow to infinities and the subnormal range.
* Fallible operations return `Except String α`; Python exception classes
  are carried as strings ("OverflowError", "ValueError", ...).
* The Modbus device is a register store `Nat → Int`; reads and writes of
  the control path go through a fault oracle `f : Nat → Bool` (the n-th
  fallible bus operation of an apply attempt fails iff `f n`), which lets
  the theorems quantify over every possible failure point.  Battery
  snapshots are inputs (`_ir_read_u16` never raises: a read error yields a
  zero field, which is one particular snapshot value).
* `time.sleep` calls and debug logging are effect-free and are omitted.
-/

namespace Growatt

/-- Equality of `Except` values is decidable when it is on both sides. -/
instance {ε α : Type} [DecidableEq ε] [DecidableEq α] : DecidableEq (Except ε α) :=
  fun a b =>
    match a, b with
    | .error e, .error e2 =>
      if h : e = e2 then .isTrue (by rw [h]) else .isFalse (fun c => h (Except.error.inj c))
    | .error _, .ok _ => .isFalse (fun c => Except.noConfusion c)
    | .ok _, .error _ => .isFalse (fun c => Except.noConfusion c)
    | .ok v, .ok v2 =>
      if h : v = v2 then .isTrue (by rw [h]) else .isFalse (fun c => h (Except.ok.inj c))

/-- Two-complement bitwise NOT composed with AND: Python `x & ~m`.
For any integers the bits of `m` and of `~m` partition the bits of `x`,
so `x & ~m = x - (x & m)`; this form evaluates in the kernel. -/
def pyAndNot (x m : Int) : Int := x - Int.land x m

/-- Python `round` on an exact rational: round half to even. -/
def pyRound (q : ℚ) : Int :=
  let f := q.floor
  let r := q - (f : ℚ)
  if r < 1 / 2 then f
  else if 1 / 2 < r then f + 1
  else if f % 2 = 0 then f else f + 1

/-- `Rat.floor` agrees with the mathematical floor on `ℚ`. -/
theorem ratFloor_eq_intFloor (q : ℚ) : q.floor = ⌊q⌋ := by
  rw [Rat.floor_def, Rat.floor_def']

/-- Source `_decode_u32_be`: big-endian unsigned 32-bit decode of a register
list, `(regs[0] << 16) | regs[1]` when at least two words are present, `0`
otherwise. -/
def decode_u32_be (regs : List Nat) : Nat :=
  match regs with
  | r0 :: r1 :: _ => (r0 <<< 16) ||| r1
  | _ => 0

/-- Source `_decode_s16`: two-complement signed decode of a 16-bit word,
`u16 - 0x10000` when bit 15 is set, the identity otherwise. -/
def decode_s16 (u16 : Nat) : Int :=
  if u16 &&& 0x8000 ≠ 0 then (u16 : Int) - 0x10000 else (u16 : Int)

/-- Source `_clamp`: `max(lo, min(hi, v))`. -/
def clamp (v lo hi : Int) : Int := max lo (min hi v)

/-- Source `_watts_to_percent`: convert a watt target into a percentage of
`base_w`, rounding to the nearest percent and clamping into `[0,100]`
(`allow_zero`) or `[1,100]` (not `allow_zero`); non-positive bases give 0 and
non-positive watt targets give the lower bound. -/
def wattsToPercent (watts base_w : Int) (allow_zero : Bool) : Int :=
  if base_w ≤ 0 then 0
  else if watts ≤ 0 then (if allow_zero then 0 else 1)
  else clamp (pyRound ((watts : ℚ) / (base_w : ℚ) * 100)) (if allow_zero then 0 else 1) 100

/-- Source `_encode_hm`: clamp hour into `[0,23]` and minute into `[0,59]`
and pack them as `(h << 8) | m` (the shift is written as `* 256`; for the
clamped non-negative hour the two agree). -/
def encodeHm (h m : Int) : Int :=
  Int.lor ((max 0 (min 23 h)) * 256) (max 0 (min 59 m))

/-- Python `str.strip` (ASCII whitespace) followed by `str.lower` (ASCII
letters), on the character list of a string.  The directive fields and the
numeric strings the coordinator ever normalises are ASCII, where Lean's
`Char.isWhitespace` / `Char.toLower` coincide with Python. -/
def pyNormChars (l : List Char) : List Char :=
  (((l.dropWhile Char.isWhitespace).reverse.dropWhile Char.isWhitespace).reverse).map
    Char.toLower

/-- `s.strip().lower()` as a string-to-string function. -/
def pyNorm (s : String) : String := String.mk (pyNormChars s.data)

/-- A Python float value: a finite value (exact rational), an infinity, or
NaN. -/
inductive PFloat where
  | finite (q : ℚ)
  | inf
  | neginf
  | nan
deriving DecidableEq

/-- Greedy scan of a digit run in which single underscores may separate two
digits (the Python numeric-literal rule used by `float`).  Returns the
digits seen (underscores removed) and the unconsumed rest.  The `Nat`
argument is recursion fuel; each call consumes at least one character, so
the length of the list always suffices (see `digitSpan`). -/
def digitSpanF : Nat → List Char → List Char × List Char
  | 0, l => ([], l)
  | _ + 1, [] => ([], [])
  | fuel + 1, c :: r =>
    if c.isDigit then
      match r with
      | '_' :: c2 :: r2 =>
        if c2.isDigit then
          match digitSpanF fuel (c2 :: r2) with
          | (p, rest) => (c :: p, rest)
        else ([c], '_' :: c2 :: r2)
      | _ =>
        match digitSpanF fuel r with
        | (p, rest) => (c :: p, rest)
    else ([], c :: r)

/-- Digit-run scan with enough fuel for its input. -/
def digitSpan (l : List Char) : List Char × List Char := digitSpanF l.length l

/-- Numeric value of a digit list, most significant first. -/
def digitsToNat (l : List Char) : Nat :=
  l.foldl (fun a c => a * 10 + (c.toNat - 48)) 0

/-- `10 ^ n` as a rational. -/
def pow10 (n : Nat) : ℚ := ((10 ^ n : ℕ) : ℚ)

/-- Exact value of a decimal literal `ip . fp e (±) emag`. -/
def decimalValue (ip fp : List Char) (esign : Bool) (emag : Nat) : ℚ :=
  let m : ℚ := ((digitsToNat (ip ++ fp) : ℕ) : ℚ) / pow10 fp.length
  if esign then m / pow10 emag else m * pow10 emag

/-- Exponent part of a Python float literal: optional sign then a digit run
that must consume the whole rest. -/
def parseExponentPart (l : List Char) : Option (Bool × Nat) :=
  let (es, r) :=
    match l with
    | '+' :: t => (false, t)
    | '-' :: t => (true, t)
    | t => (false, t)
  match digitSpan r with
  | (ed, rest) => if ed = [] ∨ rest ≠ [] then none else some (es, digitsToNat ed)

/-- Unsigned numeric body of a Python float literal:
`digits [. digits] [e exponent]` with at least one mantissa digit. -/
def parseFloatBody (l : List Char) : Option ℚ :=
  match digitSpan l with
  | (ip, r1) =>
    match r1 with
    | [] => if ip = [] then none else some (decimalValue ip [] false 0)
    | '.' :: r2 =>
      match digitSpan r2 with
      | (fp, r3) =>
        if ip = [] ∧ fp = [] then none
        else
          match r3 with
          | [] => some (decimalValue ip fp false 0)
          | 'e' :: r4 =>
            match parseExponentPart r4 with
            | some (es, em) => some (decimalValue ip fp es em)
            | none => none
          | _ => none
    | 'e' :: r4 =>
      if ip = [] then none
      else
        match parseExponentPart r4 with
        | some (es, em) => some (decimalValue ip [] es em)
        | none => none
    | _ => none

/-- Bit length of a natural number (`0` for `0`).  The `Nat` argument is
recursion fuel; `n` itself always suffices since `n` halves each step. -/
def bitlenF : Nat → Nat → Nat
  | 0, _ => 0
  | fuel + 1, n => if n = 0 then 0 else 1 + bitlenF fuel (n / 2)

/-- Bit length with enough fuel for its input. -/
def bitlen (n : Nat) : Nat := bitlenF n n

/-- `⌊log₂ a⌋` of a positive rational: the bit lengths of numerator and
denominator pin it down to two candidates, decided by one comparison with
the corresponding power of two. -/
def ratLog2Floor (a : ℚ) : Int :=
  let n := a.num.toNat
  let d := a.den
  let e0 : Int := (bitlen n : Int) - (bitlen d : Int)
  if 0 ≤ e0 then (if d * 2 ^ e0.toNat ≤ n then e0 else e0 - 1)
  else (if d ≤ n * 2 ^ (-e0).toNat then e0 else e0 - 1)

/-- `2 ^ e` as a rational, for integer `e`. -/
def pow2R (e : Int) : ℚ :=
  if 0 ≤ e then ((2 ^ e.toNat : ℕ) : ℚ) else 1 / ((2 ^ (-e).toNat : ℕ) : ℚ)

/-- Round an exact rational to the nearest IEEE-754 binary64 value, as
CPython's correctly-rounded `float(s)` conversion does: round half to even
at the 53-bit mantissa quantum `2^(e-52)` with the exponent clamped below
at `-1022` (so subnormals round to multiples of `2^(-1074)` and values
below half the least subnormal flush to zero), and overflow to an infinity
when the rounded magnitude reaches `2^1024`.  Returns the exact rational
value of the resulting double. -/
def toDouble (q : ℚ) : PFloat :=
  if q = 0 then PFloat.finite 0
  else
    let a : ℚ := if q < 0 then -q else q
    let e : Int := max (ratLog2Floor a) (-1022)
    let scale : ℚ := pow2R (e - 52)
    let m : Int := pyRound (a / scale)
    let r : ℚ := (m : ℚ) * scale
    if ((2 ^ 1024 : ℕ) : ℚ) ≤ r then (if q < 0 then PFloat.neginf else PFloat.inf)
    else PFloat.finite (if q < 0 then -r else r)

/-- Python `float(s)` on an already stripped and lowercased string:
optional sign, then `inf` / `infinity` / `nan` or a numeric body, whose
exact decimal value is rounded to the nearest IEEE-754 double (overflowing
to an infinity, exactly where `int(round(float(s)))` then raises an
uncaught `OverflowError`).  `none` models the `ValueError` raised for
unparsable strings. -/
def pyFloatOfChars (l : List Char) : Option PFloat :=
  let (neg, body) :=
    match l with
    | '+' :: r => (false, r)
    | '-' :: r => (true, r)
    | r => (false, r)
  if body = "inf".data ∨ body = "infinity".data then
    some (if neg then PFloat.neginf else PFloat.inf)
  else if body = "nan".data then some PFloat.nan
  else
    match parseFloatBody body with
    | some q => some (toDouble (if neg then -q else q))
    | none => none

/-- A JSON-ish Python value as received in the directive `action` field. -/
inductive PyVal where
  | none
  | int (n : Int)
  | float (x : PFloat)
  | str (s : String)
  | other
deriving DecidableEq

/-- Python `int(round(x))` on a float value: finite values round half to
even, infinities raise `OverflowError`, NaN raises `ValueError`. -/
def intRoundFloat (x : PFloat) : Except String Int :=
  match x with
  | .finite q => .ok (pyRound q)
  | .inf => .error "OverflowError"
  | .neginf => .error "OverflowError"
  | .nan => .error "ValueError"

/-- Source `_parse_action_w`: `None` and non-numeric values give 0;
ints and floats are rounded (`int(round(raw))`, with no handler, so an
infinite or NaN float raises); strings are stripped and lowercased, the
sentinels give 0, everything else goes through
`int(round(float(s)))` with only `ValueError` caught. -/
def parseActionW (v : PyVal) : Except String Int :=
  match v with
  | .none => .ok 0
  | .int n => .ok n
  | .float x => intRoundFloat x
  | .str s =>
    let t := pyNorm s
    if t = "" ∨ t = "none" ∨ t = "null" ∨ t = "nan" then .ok 0
    else
      match pyFloatOfChars t.data with
      | Option.none => .ok 0
      | Option.some x =>
        match intRoundFloat x with
        | .ok n => .ok n
        | .error e => if e = "ValueError" then .ok 0 else .error e
  | .other => .ok 0

/-- A Spock reply as seen by `_maybe_apply_spock_action`: a JSON object with
optional `status` and `operation_mode` fields (already coerced to strings by
`str(...)`: absent fields behave like the defaults `""` and `"none"`) and an
arbitrary `action` value. -/
structure Directive where
  status : Option String
  operation_mode : Option String
  action : PyVal
deriving DecidableEq

/-- `str(resp.get("status", "")).strip().lower()`. -/
def normStatus (d : Directive) : String := pyNorm (d.status.getD "")

/-- `str(resp.get("operation_mode", "none")).strip().lower()`. -/
def normMode (d : Directive) : String := pyNorm (d.operation_mode.getD "none")

/-- The decision part of `_maybe_apply_spock_action` (lines 314-337): a
non-empty normalised status other than `"ok"` yields no action; otherwise
the directive is translated into a desired `(mode, watts)` pair.  An
exception of `_parse_action_w` propagates. -/
def translateDirective (d : Directive) : Except String (Option (String × Int)) :=
  if normStatus d ≠ "" ∧ normStatus d ≠ "ok" then .ok Option.none
  else
    match parseActionW d.action with
    | .error e => .error e
    | .ok action_w =>
      if action_w = 0 ∧ (normMode d = "charge" ∨ normMode d = "discharge") then
        .ok (some ("load_first", 0))
      else if normMode d = "charge" then .ok (some ("charge_grid_batfirst", action_w))
      else if normMode d = "discharge" then .ok (some ("load_first", action_w))
      else if normMode d = "auto" ∨ normMode d = "none" then .ok (some ("load_first", 5000))
      else .ok (some ("load_first", 5000))

/-- The dictionary produced by `_battery_snapshot`, with the fields that
`_battery_online` consumes.  `bdc`, `vbat_raw` and `soc_raw` are raw u16
reads, `pch`/`pdis` are the u32 reads scaled by 0.1; a failed input-register
read contributes a zero field (`_ir_read_*` swallow errors), so quantifying
over all snapshots covers every read outcome. -/
structure BatterySnapshot where
  bdc : Int
  vbat_raw : Int
  soc_raw : Int
  pch : ℚ
  pdis : ℚ
deriving DecidableEq

/-- Source `_battery_online`: an all-zero snapshot is offline, otherwise the
battery counts as online iff raw voltage or raw SOC is positive. -/
def batteryOnline (s : BatterySnapshot) : Bool :=
  if s.bdc = 0 ∧ s.vbat_raw = 0 ∧ s.soc_raw = 0 ∧ s.pch = 0 ∧ s.pdis = 0 then false
  else decide (0 < s.vbat_raw) || decide (0 < s.soc_raw)

/-- The exact rational value of the IEEE-754 double `math.sqrt(3)`
(`0x1.bb67ae8584caap+0`). -/
def sqrt3Double : ℚ := 3900231685776981 / 2251799813685248

/-- One cycle of raw device register state as seen by `_read_modbus_sync`:
`none` models a read that returns an error frame (`isError()`), `connected`
models the TCP connect outcome.  Register pairs are the two words of a
2-count read. -/
structure DeviceRegs where
  connected : Bool
  hr10 : Option Nat
  ir3005 : Option (Nat × Nat)
  ir3001 : Option (Nat × Nat)
  ir3048 : Option Nat
  ir3010 : Option Nat
  ir3171 : Option Nat
  ir3178 : Option (Nat × Nat)
  ir3180 : Option (Nat × Nat)
deriving DecidableEq

/-- The telemetry dictionary returned by `_read_modbus_sync`. -/
structure TelemetryData where
  battery_soc_total : Int
  battery_power : Int
  pv_power : Int
  net_grid_power : Int
  supply_power : Int
deriving DecidableEq

/-- The nominal-power resolution step of `_read_modbus_sync` (source lines
170-184): when `self.nominal_power_w` is unset, try holding register 10
and accept only the two known scale bands, then fall back to the
apparent-power input pair 3005 scaled by `0.1 / 1000`. -/
def resolveNominal (nominal : Option ℚ) (d : DeviceRegs) : Option ℚ :=
  match nominal with
  | some q => some q
  | Option.none =>
    let afterHr : Option ℚ :=
      match d.hr10 with
      | some val =>
        if 5000 ≤ val ∧ val ≤ 7000 then some ((val : ℚ) / 1000)
        else if 50000 ≤ val ∧ val ≤ 70000 then some ((val : ℚ) / 10000)
        else Option.none
      | Option.none => Option.none
    match afterHr with
    | some q => some q
    | Option.none =>
      match d.ir3005 with
      | some (w0, w1) => some ((decode_u32_be [w0, w1] : ℚ) * (1 / 10) / 1000)
      | Option.none => Option.none

/-- Source `_read_modbus_sync`.  `nominal` is the cached
`self.nominal_power_w` on entry; the first component of the result is its
value on exit (the attribute is assigned before any fallible telemetry
read, so it survives a failing cycle).  After the `resolveNominal` step,
the telemetry part decodes PV power, grid power (sign-flipped and scaled
by the hard-coded `math.sqrt(3)`), SOC with BMS fallback, and battery
charge/discharge power, and derives `load = grid + pv - battery`. -/
def readModbusSync (nominal : Option ℚ) (d : DeviceRegs) :
    Option ℚ × Except String TelemetryData :=
  if d.connected = false then (nominal, .error "ConnectionError") else
  let nominal1 : Option ℚ := resolveNominal nominal d
  match d.ir3001 with
  | Option.none => (nominal1, .error "ModbusException: PV")
  | some (p0, p1) =>
    let pv_w : ℚ := (decode_u32_be [p0, p1] : ℚ) * (1 / 10)
    match d.ir3048 with
    | Option.none => (nominal1, .error "ModbusException: Grid")
    | some g =>
      let grid_raw : ℚ := (decode_s16 g : ℚ) * (1 / 10)
      let grid_w : ℚ := grid_raw * (-1) * sqrt3Double
      let soc : Nat :=
        let s0 := match d.ir3010 with | some v => v | Option.none => 0
        if s0 = 0 then
          match d.ir3171 with | some v => v | Option.none => s0
        else s0
      match d.ir3178, d.ir3180 with
      | some (a, b), some (c, e) =>
        let pdis_w : ℚ := (decode_u32_be [a, b] : ℚ) * (1 / 10)
        let pch_w : ℚ := (decode_u32_be [c, e] : ℚ) * (1 / 10)
        let bat_w : ℚ := pch_w - pdis_w
        let load_w : ℚ := grid_w + pv_w - bat_w
        (nominal1,
          .ok ⟨(soc : Int), pyRound bat_w, pyRound pv_w, pyRound grid_w, pyRound load_w⟩)
      | _, _ => (nominal1, .error "ModbusException: battery power")

/-! ### The control path

`_apply_control_sync` and its helpers, as a deterministic interpreter over
a holding-register store `Nat → Int` plus a fault oracle: the n-th fallible
bus operation of the attempt (TCP connect, each holding-register read, each
FC16 write, each read of a read-back loop) fails iff `f n` is `true`.  A
failed write leaves the register store unchanged (the device answered with
an error frame).  `wr` counts the register writes that reached the device.
-/

/-- Register addresses (source constants `_T1_CFG` ... `_IR_PCH_H`). -/
def regT1Cfg : Nat := 3038

/-- `_T1_END`. -/
def regT1End : Nat := 3039

/-- `_T2_CFG`. -/
def regT2Cfg : Nat := 3040

/-- `_T3_CFG`. -/
def regT3Cfg : Nat := 3042

/-- `_HR_CHARGE_POWER_RATE`. -/
def regChargeRate : Nat := 3047

/-- `_HR_GRID_CHARGE_ENABLE`. -/
def regGridChargeEnable : Nat := 3049

/-- `_HR_DISCHARGE_POWER_RATE`. -/
def regDischargeRate : Nat := 3036

/-- `_ENABLE_BIT`. -/
def enableBit : Int := 0x8000

/-- `_MODE_MASK`. -/
def modeMask : Int := 0x6000

/-- `_TIME_BITS_MASK`. -/
def timeBitsMask : Int := 0x1FFF

/-- `_MODE_LOAD`. -/
def modeLoad : Int := 0x0000

/-- `_MODE_BAT`. -/
def modeBat : Int := 0x2000

/-- Interpreter state: the holding-register store, the index of the next
fallible bus operation, and the count of writes accepted by the device. -/
structure St where
  dev : Nat → Int
  idx : Nat
  wr : Nat

/-- Consume one fault-oracle slot. -/
def stepFault (f : Nat → Bool) (s : St) : Bool × St :=
  (f s.idx, { s with idx := s.idx + 1 })

/-- Source `_hr_read_u16`: raises on a read error. -/
def hrReadU16 (f : Nat → Bool) (reg : Nat) (s : St) : Except String Int × St :=
  let p := stepFault f s
  if p.1 then (.error "read error", p.2) else (.ok (p.2.dev reg), p.2)

/-- Source `_hr_write_u16_fc16`: one FC16 write of `value & 0xFFFF`,
raising on a write error. -/
def hrWriteU16 (f : Nat → Bool) (reg : Nat) (v : Int) (s : St) : Except String Unit × St :=
  let p := stepFault f s
  if p.1 then (.error "write error", p.2)
  else
    (.ok (),
      { p.2 with dev := Function.update p.2.dev reg (Int.land v 0xFFFF), wr := p.2.wr + 1 })

/-- Source `_hr_write_pair_fc16`: one FC16 write of two masked words. -/
def hrWritePair (f : Nat → Bool) (reg : Nat) (v0 v1 : Int) (s : St) :
    Except String Unit × St :=
  let p := stepFault f s
  if p.1 then (.error "write error", p.2)
  else
    (.ok (),
      { p.2 with
        dev :=
          Function.update (Function.update p.2.dev reg (Int.land v0 0xFFFF)) (reg + 1)
            (Int.land v1 0xFFFF),
        wr := p.2.wr + 1 })

/-- Source `_readback_until`: up to 8 reads of `reg` (via `_hr_read_u16`,
so a read error raises), returning whether the expected value was seen. -/
def readbackUntil (f : Nat → Bool) (reg : Nat) (expected : Int) :
    Nat → St → Except String Bool × St
  | 0, s => (.ok false, s)
  | n + 1, s =>
    match hrReadU16 f reg s with
    | (.error e, s1) => (.error e, s1)
    | (.ok v, s1) => if v = expected then (.ok true, s1) else readbackUntil f reg expected n s1

/-- Error-propagating sequencing of interpreter steps. -/
def bindE {α β : Type} (r : Except String α × St) (k : α → St → Except String β × St) :
    Except String β × St :=
  match r with
  | (.ok a, s) => k a s
  | (.error e, s) => (.error e, s)

/-- Source `_apply_tou_time1_mode_24h`: read the four TOU registers, disable
windows 2 and 3 when enabled (best-effort read-back), then force window 1 to
the requested mode over 00:00-23:59 with a pair write and two best-effort
read-backs. -/
def applyTouTime1Mode24h (f : Nat → Bool) (modeBits : Int) (s : St) :
    Except String Unit × St :=
  bindE (hrReadU16 f regT1Cfg s) fun t1cfg0 s =>
  bindE (hrReadU16 f regT1End s) fun _t1end0 s =>
  bindE (hrReadU16 f regT2Cfg s) fun t2cfg0 s =>
  bindE (hrReadU16 f regT3Cfg s) fun t3cfg0 s =>
  bindE
    (if Int.land t2cfg0 enableBit ≠ 0 then
      bindE (hrWriteU16 f regT2Cfg (pyAndNot t2cfg0 enableBit) s) fun _ s =>
      bindE (readbackUntil f regT2Cfg (pyAndNot t2cfg0 enableBit) 8 s) fun _ s => (.ok (), s)
    else (.ok (), s)) fun _ s =>
  bindE
    (if Int.land t3cfg0 enableBit ≠ 0 then
      bindE (hrWriteU16 f regT3Cfg (pyAndNot t3cfg0 enableBit) s) fun _ s =>
      bindE (readbackUntil f regT3Cfg (pyAndNot t3cfg0 enableBit) 8 s) fun _ s => (.ok (), s)
    else (.ok (), s)) fun _ s =>
  let startBits := Int.land (encodeHm 0 0) timeBitsMask
  let endBits := encodeHm 23 59
  let newT1Cfg :=
    Int.lor (Int.lor (Int.lor (pyAndNot t1cfg0 (Int.lor modeMask timeBitsMask)) modeBits)
      enableBit) startBits
  let newT1End := endBits
  bindE (hrWritePair f regT1Cfg newT1Cfg newT1End s) fun _ s =>
  bindE (readbackUntil f regT1Cfg newT1Cfg 8 s) fun _ s =>
  bindE (readbackUntil f regT1End newT1End 8 s) fun _ s => (.ok (), s)

/-- Source `_apply_charge_grid_batfirst_w`: battery-first TOU window, enable
grid charging, then write the charge-rate percent (floored at 1%). -/
def applyChargeGridBatfirstW (f : Nat → Bool) (targetChargeW base : Int) (s : St) :
    Except String Unit × St :=
  bindE (applyTouTime1Mode24h f modeBat s) fun _ s =>
  bindE (hrWriteU16 f regGridChargeEnable 1 s) fun _ s =>
  bindE (readbackUntil f regGridChargeEnable 1 8 s) fun _ s =>
  let pct := wattsToPercent targetChargeW base false
  bindE (hrWriteU16 f regChargeRate pct s) fun _ s =>
  bindE (readbackUntil f regChargeRate pct 8 s) fun _ s => (.ok (), s)

/-- Source `_apply_load_first_discharge_limit_w`: load-first TOU window,
write the discharge-rate percent only when it changes (with a strict
read-back that restores the previous value and raises on failure), then
disable grid charging. -/
def applyLoadFirstDischargeLimitW (f : Nat → Bool) (dischargeLimitW base : Int) (s : St) :
    Except String Unit × St :=
  bindE (applyTouTime1Mode24h f modeLoad s) fun _ s =>
  let pct := wattsToPercent dischargeLimitW base true
  bindE (hrReadU16 f regDischargeRate s) fun old s =>
  bindE
    (if old ≠ pct then
      bindE (hrWriteU16 f regDischargeRate pct s) fun _ s =>
      bindE (readbackUntil f regDischargeRate pct 8 s) fun ok s =>
      if ok then (.ok (), s)
      else
        bindE (hrWriteU16 f regDischargeRate old s) fun _ s =>
        bindE (readbackUntil f regDischargeRate old 8 s) fun _ s =>
        (.error "DischargeRate readback failed", s)
    else (.ok (), s)) fun _ s =>
  bindE (hrWriteU16 f regGridChargeEnable 0 s) fun _ s =>
  bindE (readbackUntil f regGridChargeEnable 0 8 s) fun _ s => (.ok (), s)

/-- The register backup taken by `_apply_control_sync` before any write;
`discharge_rate` is `none` when its read raised (the one swallowed backup
read). -/
structure Backup where
  hr3049 : Int
  hr3047 : Int
  t1_cfg : Int
  t1_end : Int
  t2_cfg : Int
  t3_cfg : Int
  discharge_rate : Option Int

/-- Per-step fault flags for the six best-effort restore writes of
`_rollback_best_effort` (each is a swallowed `except`). -/
structure RbFaults where
  w3049 : Bool
  w3047 : Bool
  wT1Pair : Bool
  w3040 : Bool
  w3042 : Bool
  w3036 : Bool

/-- The rollback in which every restore write is accepted by the device. -/
def rbNoFaults : RbFaults := ⟨false, false, false, false, false, false⟩

/-- One best-effort restore write: a failure is swallowed, leaving the
store unchanged. -/
def rbWriteU16 (flt : Bool) (reg : Nat) (v : Int) (s : St) : St :=
  if flt then s
  else { s with dev := Function.update s.dev reg (Int.land v 0xFFFF), wr := s.wr + 1 }

/-- One best-effort restore pair write. -/
def rbWritePair (flt : Bool) (reg : Nat) (v0 v1 : Int) (s : St) : St :=
  if flt then s
  else
    { s with
      dev :=
        Function.update (Function.update s.dev reg (Int.land v0 0xFFFF)) (reg + 1)
          (Int.land v1 0xFFFF),
      wr := s.wr + 1 }

/-- Source `_rollback_best_effort`: re-write every backed-up register
(grid-charge enable, charge rate, the window-1 pair, window-2 and window-3
configs, and the discharge rate when it was captured), swallowing
individual write failures. -/
def rollbackBestEffort (b : Backup) (rb : RbFaults) (s : St) : St :=
  let s := rbWriteU16 rb.w3049 regGridChargeEnable b.hr3049 s
  let s := rbWriteU16 rb.w3047 regChargeRate b.hr3047 s
  let s := rbWritePair rb.wT1Pair regT1Cfg b.t1_cfg b.t1_end s
  let s := rbWriteU16 rb.w3040 regT2Cfg b.t2_cfg s
  let s := rbWriteU16 rb.w3042 regT3Cfg b.t3_cfg s
  match b.discharge_rate with
  | some v => rbWriteU16 rb.w3036 regDischargeRate v s
  | Option.none => s

/-- The `try` block of `_apply_control_sync`: the mode-specific apply
(an unsupported mode raises `ValueError`) followed by the post-action
battery-online check. -/
def tryApplyAndPostcheck (f : Nat → Bool) (mode : String) (w base : Int)
    (bat1 : BatterySnapshot) (s : St) : Except String Unit × St :=
  bindE
    (match mode with
    | "charge_grid_batfirst" => applyChargeGridBatfirstW f w base s
    | "load_first" => applyLoadFirstDischargeLimitW f w base s
    | _ => (.error "ValueError: modo no soportado", s)) fun _ s =>
  if batteryOnline bat1 then (.ok (), s) else (.error "Battery offline AFTER", s)

/-- Source `_apply_control_sync`: connect, take the register backup, check
the battery online (pre-action snapshot `bat0`), run the mode-specific
apply and the post-action check (snapshot `bat1`), and on any exception in
that `try` block restore the backup best-effort.  Returns whether the
attempt succeeded (no exception) together with the final interpreter
state. -/
def applyControlSync (f : Nat → Bool) (rb : RbFaults) (mode : String) (w base : Int)
    (bat0 bat1 : BatterySnapshot) (dev : Nat → Int) : Bool × St :=
  let s0 : St := ⟨dev, 0, 0⟩
  let pc := stepFault f s0
  if pc.1 then (false, pc.2) else
  match hrReadU16 f regGridChargeEnable pc.2 with
  | (.error _, s) => (false, s)
  | (.ok b3049, s) =>
  match hrReadU16 f regChargeRate s with
  | (.error _, s) => (false, s)
  | (.ok b3047, s) =>
  match hrReadU16 f regT1Cfg s with
  | (.error _, s) => (false, s)
  | (.ok bT1c, s) =>
  match hrReadU16 f regT1End s with
  | (.error _, s) => (false, s)
  | (.ok bT1e, s) =>
  match hrReadU16 f regT2Cfg s with
  | (.error _, s) => (false, s)
  | (.ok bT2c, s) =>
  match hrReadU16 f regT3Cfg s with
  | (.error _, s) => (false, s)
  | (.ok bT3c, s) =>
  let pd := stepFault f s
  let drBackup : Option Int := if pd.1 then Option.none else some (pd.2.dev regDischargeRate)
  let backup : Backup := ⟨b3049, b3047, bT1c, bT1e, bT2c, bT3c, drBackup⟩
  if batteryOnline bat0 = false then (false, pd.2) else
  match tryApplyAndPostcheck f mode w base bat1 pd.2 with
  | (.ok _, s) => (true, s)
  | (.error _, s) => (false, rollbackBestEffort backup rb s)

/-- Source `_maybe_apply_spock_action`: no JSON reply or a non-ok status
yields no action; otherwise the translated desired action is compared with
the last applied signature and, when new, applied; the signature is updated
only on success (the apply exception is caught and logged).  Returns the
new signature together with the interpreter state of the attempt
(`⟨dev, 0, 0⟩` when the device was not touched at all). -/
def maybeApplySpockAction (resp : Option Directive) (lastSig : Option (String × Int))
    (base : Int) (dev : Nat → Int) (bat0 bat1 : BatterySnapshot) (f : Nat → Bool)
    (rb : RbFaults) : Except String (Option (String × Int) × St) :=
  match resp with
  | Option.none => .ok (lastSig, ⟨dev, 0, 0⟩)
  | some d =>
    match translateDirective d with
    | .error e => .error e
    | .ok Option.none => .ok (lastSig, ⟨dev, 0, 0⟩)
    | .ok (some sig) =>
      if lastSig = some sig then .ok (lastSig, ⟨dev, 0, 0⟩)
      else
        let r := applyControlSync f rb sig.1 sig.2 base bat0 bat1 dev
        .ok ((if r.1 then some sig else lastSig), r.2)

/-! ### Theorems -/

section ClaimProofs

attribute [local semireducible] Rat.add Rat.mul Rat.sub Rat.inv

/-- For a 16-bit word, bit 15 is set iff the word is at least `0x8000`. -/
theorem and_bit15 (w : Nat) (h : w < 65536) : w &&& 32768 ≠ 0 ↔ 32768 ≤ w := by
  have h1 : w &&& 32768 = (w.testBit 15).toNat * 32768 := by
    simpa using Nat.and_two_pow w 15
  have h2 : w.testBit 15 = decide (w / 32768 % 2 = 1) := by
    simpa using (Nat.testBit_to_div_mod (x := w) (i := 15))
  rcases hb : w.testBit 15 with _ | _ <;> rw [hb] at h1 h2 <;> simp at h1 h2
  · constructor
    · intro hc
      exact absurd h1 hc
    · intro hge
      omega
  · constructor
    · intro _
      omega
    · intro _
      omega

/-- Claim C8: `decode_s16` maps every 16-bit word into `[-32768, 32767]`,
with `decode_s16 0x8000 = -32768`, `decode_s16 0x7FFF = 32767`,
`decode_s16 0x0001 = 1`; it subtracts `0x10000` exactly when bit 15 is set
and is the identity otherwise. -/
theorem c8_decode_s16 (w : Nat) (h : w < 65536) :
    (-32768 ≤ decode_s16 w ∧ decode_s16 w ≤ 32767) ∧
    decode_s16 0x8000 = -32768 ∧ decode_s16 0x7FFF = 32767 ∧ decode_s16 0x0001 = 1 ∧
    (w &&& 0x8000 ≠ 0 → decode_s16 w = (w : Int) - 0x10000) ∧
    (w &&& 0x8000 = 0 → decode_s16 w = (w : Int)) := by
  refine ⟨?_, by decide, by decide, by decide, ?_, ?_⟩
  · unfold decode_s16
    split
    · next hbit =>
      have hge : 32768 ≤ w := (and_bit15 w h).mp hbit
      omega
    · next hbit =>
      have hlt : w < 32768 := by
        by_contra hge
        exact hbit ((and_bit15 w h).mpr (by omega))
      omega
  · intro hbit
    simp [decode_s16, hbit]
  · intro hbit
    simp [decode_s16, hbit]

/-- Claim C8 witness: the theorem instantiated at the word `1`. -/
theorem c8_decode_s16_witness :
    (-32768 ≤ decode_s16 1 ∧ decode_s16 1 ≤ 32767) ∧ decode_s16 0x8000 = -32768 := by
  have h := c8_decode_s16 1 (by omega)
  exact ⟨h.1, h.2.1⟩

/-- Claim C9: `_battery_online` is extensionally the predicate
`vbat_raw > 0 or soc_raw > 0`; in particular a snapshot with zero voltage
and zero SOC is offline even with nonzero charge power. -/
theorem c9_battery_online :
    (∀ s : BatterySnapshot,
      batteryOnline s = (decide (0 < s.vbat_raw) || decide (0 < s.soc_raw))) ∧
    batteryOnline ⟨1, 0, 0, 500, 0⟩ = false := by
  constructor
  · intro s
    unfold batteryOnline
    split
    · next hg =>
      rcases hg with ⟨_, h2, h3, _, _⟩
      simp [h2, h3]
    · rfl
  · decide

/-- Every value of `clamp` lies between its bounds when they are ordered. -/
theorem clamp_mem (v lo hi : Int) (h : lo ≤ hi) : lo ≤ clamp v lo hi ∧ clamp v lo hi ≤ hi := by
  unfold clamp
  omega

/-- Claim C6: for every positive base, `_watts_to_percent` maps 0 W to 0 %
(or 1 % when zero is not allowed), maps the base itself to 100 %, and its
value is always within `[0,100]` (`allow_zero`) resp. `[1,100]`
(not `allow_zero`), for watts of any sign and magnitude. -/
theorem c6_watts_to_percent (base_w : Int) (hb : 0 < base_w) :
    wattsToPercent 0 base_w true = 0 ∧
    wattsToPercent 0 base_w false = 1 ∧
    (∀ az, wattsToPercent base_w base_w az = 100) ∧
    (∀ (watts : Int) az,
      (az = true →
        0 ≤ wattsToPercent watts base_w az ∧ wattsToPercent watts base_w az ≤ 100) ∧
      (az = false →
        1 ≤ wattsToPercent watts base_w az ∧ wattsToPercent watts base_w az ≤ 100)) := by
  have hble : ¬base_w ≤ 0 := by omega
  refine ⟨by simp [wattsToPercent, hble], by simp [wattsToPercent, hble], ?_, ?_⟩
  · intro az
    have hq : ((base_w : ℚ) / (base_w : ℚ) * 100) = 100 := by
      rw [div_self (by exact_mod_cast hb.ne'), one_mul]
    have hr : pyRound 100 = 100 := by decide
    unfold wattsToPercent
    rw [if_neg hble, if_neg (by omega), hq, hr]
    rcases az with _ | _ <;> simp [clamp]
  · intro watts az
    constructor <;> intro haz <;> subst haz <;> unfold wattsToPercent <;>
      rw [if_neg hble] <;> split
    · simp
    · exact clamp_mem _ 0 100 (by omega)
    · simp
    · exact clamp_mem _ 1 100 (by omega)

/-- Claim C6 witness: the theorem instantiated at base 9000 W. -/
theorem c6_watts_to_percent_witness :
    wattsToPercent 0 9000 true = 0 ∧ wattsToPercent 0 9000 false = 1 ∧
    wattsToPercent 9000 9000 true = 100 := by
  have h := c6_watts_to_percent 9000 (by omega)
  exact ⟨h.1, h.2.1, h.2.2.1 true⟩

/-- Claim C10 counterexample: `_parse_action_w` is not total.  The numeric
string `"inf"` passes the sentinel guard, `float("inf")` succeeds, and
`int(round(...))` then raises `OverflowError`, which the `except
ValueError` handler does not catch: no integer is returned. -/
theorem c10_parse_action_counterexample :
    parseActionW (PyVal.str "inf") = .error "OverflowError" ∧
    ¬∃ n : Int, parseActionW (PyVal.str "inf") = .ok n := by
  have h : parseActionW (PyVal.str "inf") = .error "OverflowError" := by decide
  refine ⟨h, ?_⟩
  rintro ⟨n, hn⟩
  rw [h] at hn
  exact Except.noConfusion hn

/-- Claim C10 amended: `_parse_action_w` returns an integer for every input
except an infinite float — literal (`"inf"`/`"infinity"`) or a numeric
string whose nearest-double conversion overflows, such as `"1e400"` —
where the uncaught `OverflowError` of `int(round(...))` propagates, and
the NaN float value passed directly (uncaught `ValueError`): `None`,
non-numeric values, the sentinel strings, other non-numeric strings, and
NaN-denoting strings yield 0, while finite numerics yield the
nearest-double value rounded half-to-even. -/
theorem c10_parse_action_amended :
    parseActionW PyVal.none = .ok 0 ∧
    (∀ n : Int, parseActionW (.int n) = .ok n) ∧
    (∀ q : ℚ, parseActionW (.float (.finite q)) = .ok (pyRound q)) ∧
    parseActionW (.float .inf) = .error "OverflowError" ∧
    parseActionW (.float .neginf) = .error "OverflowError" ∧
    parseActionW (.float .nan) = .error "ValueError" ∧
    parseActionW PyVal.other = .ok 0 ∧
    (∀ s : String,
      ((pyNorm s = "" ∨ pyNorm s = "none" ∨ pyNorm s = "null" ∨ pyNorm s = "nan") →
        parseActionW (.str s) = .ok 0) ∧
      (¬(pyNorm s = "" ∨ pyNorm s = "none" ∨ pyNorm s = "null" ∨ pyNorm s = "nan") →
        (pyFloatOfChars (pyNorm s).data = Option.none → parseActionW (.str s) = .ok 0) ∧
        (∀ q : ℚ, pyFloatOfChars (pyNorm s).data = some (.finite q) →
          parseActionW (.str s) = .ok (pyRound q)) ∧
        (pyFloatOfChars (pyNorm s).data = some .nan → parseActionW (.str s) = .ok 0) ∧
        ((pyFloatOfChars (pyNorm s).data = some .inf ∨
          pyFloatOfChars (pyNorm s).data = some .neginf) →
          parseActionW (.str s) = .error "OverflowError"))) := by
  refine ⟨rfl, fun n => rfl, fun q => rfl, rfl, rfl, rfl, rfl, ?_⟩
  intro s
  constructor
  · intro hg
    simp only [parseActionW, if_pos hg]
  · intro hg
    refine ⟨?_, ?_, ?_, ?_⟩
    · intro hp
      simp only [parseActionW, if_neg hg, hp]
    · intro q hp
      simp only [parseActionW, if_neg hg, hp, intRoundFloat]
    · intro hp
      simp only [parseActionW, if_neg hg, hp, intRoundFloat]
      rfl
    · rintro (hp | hp) <;> simp only [parseActionW, if_neg hg, hp, intRoundFloat] <;> rfl

set_option maxRecDepth 10000 in
/-- Claim C10 witness: the amended theorem evaluated on the numeric string
`"12.5"`, whose nearest double is exactly 25/2, rounded half-to-even to
12. -/
theorem c10_parse_action_witness : parseActionW (PyVal.str "12.5") = .ok 12 := by
  have h :=
    (((c10_parse_action_amended.2.2.2.2.2.2.2 "12.5").2 (by decide)).2.1 (25 / 2 : ℚ)
      (by decide))
  rw [h]
  norm_num [show pyRound (25 / 2 : ℚ) = 12 by decide]

/-- Claim C3 counterexample: a directive whose `status` field is present
but empty is "present and not ok", yet the translator still produces an
action: Python's truthiness test `if status and status != "ok"` skips the
guard for the empty string. -/
theorem c3_translator_counterexample :
    (⟨some "", some "charge", .int 1000⟩ : Directive).status = some "" ∧
    pyNorm "" ≠ "ok" ∧
    translateDirective ⟨some "", some "charge", .int 1000⟩ =
      .ok (some ("charge_grid_batfirst", 1000)) ∧
    translateDirective ⟨some "", some "charge", .int 1000⟩ ≠ .ok Option.none := by
  refine ⟨rfl, by decide, by decide, by decide⟩

/-- Claim C3 amended: the Command Translator as a pure function of the
directive.  A present status whose stripped lowercase form is non-empty
and differs from "ok" yields no action; when the status check passes
(empty or "ok"), zero watts in charge/discharge mode yields
`(load_first, 0)`, charge yields `(charge_grid_batfirst, action_w)`,
discharge yields `(load_first, action_w)`, and any other mode (auto, none,
unrecognized) yields `(load_first, 5000)`. -/
theorem c3_translator_amended (d : Directive) :
    (∀ s : String, d.status = some s → pyNorm s ≠ "" → pyNorm s ≠ "ok" →
      translateDirective d = .ok Option.none) ∧
    (∀ action_w : Int, parseActionW d.action = .ok action_w →
      (normStatus d = "" ∨ normStatus d = "ok") →
      ((action_w = 0 → (normMode d = "charge" ∨ normMode d = "discharge") →
        translateDirective d = .ok (some ("load_first", 0))) ∧
      (action_w ≠ 0 → normMode d = "charge" →
        translateDirective d = .ok (some ("charge_grid_batfirst", action_w))) ∧
      (action_w ≠ 0 → normMode d = "discharge" →
        translateDirective d = .ok (some ("load_first", action_w))) ∧
      (normMode d ≠ "charge" → normMode d ≠ "discharge" →
        translateDirective d = .ok (some ("load_first", 5000))))) := by
  constructor
  · intro s hs h1 h2
    have hns : normStatus d = pyNorm s := by rw [normStatus, hs, Option.getD_some]
    rw [translateDirective, if_pos ⟨by rw [hns]; exact h1, by rw [hns]; exact h2⟩]
  · intro action_w hp hok
    have hst : ¬(normStatus d ≠ "" ∧ normStatus d ≠ "ok") := by
      rcases hok with h | h <;> simp [h]
    refine ⟨?_, ?_, ?_, ?_⟩
    · intro h0 hm
      simp only [translateDirective, hp]
      rw [if_neg hst, if_pos ⟨h0, hm⟩]
    · intro h0 hm
      simp only [translateDirective, hp]
      rw [if_neg hst, if_neg (fun hc => h0 hc.1), if_pos hm]
    · intro h0 hm
      have hm2 : normMode d ≠ "charge" := by rw [hm]; decide
      simp only [translateDirective, hp]
      rw [if_neg hst, if_neg (fun hc => h0 hc.1), if_neg hm2, if_pos hm]
    · intro hc hd
      simp only [translateDirective, hp]
      rw [if_neg hst, if_neg (fun hco => hco.2.elim hc hd), if_neg hc, if_neg hd]
      try split
      all_goals rfl

/-- Claim C3 witness: the amended theorem evaluated on the directive
`{status: "ok", operation_mode: "charge", action: 2000}`. -/
theorem c3_translator_witness :
    translateDirective ⟨some "ok", some "charge", .int 2000⟩ =
      .ok (some ("charge_grid_batfirst", 2000)) := by
  exact ((c3_translator_amended ⟨some "ok", some "charge", .int 2000⟩).2 2000 rfl
    (by right; decide)).2.1 (by decide) (by decide)

/-- The cache component of a connected poll is exactly the nominal-power
resolution, whatever the telemetry reads return. -/
theorem readModbusSync_fst (nominal : Option ℚ) (d : DeviceRegs) (h : d.connected = true) :
    (readModbusSync nominal d).1 = resolveNominal nominal d := by
  obtain ⟨con, hr10, i5, i1, i48, i10, i71, i78, i80⟩ := d
  cases h
  rcases i1 with _ | ⟨p0, p1⟩
  · rfl
  rcases i48 with _ | g
  · rfl
  rcases i78 with _ | ⟨a, b⟩ <;> rcases i80 with _ | ⟨c, e⟩ <;> rfl

/-- Claim C5 counterexample: on the claim's raw registers
(PV pair decoding to 30000, grid word `0xFE0C` = s16 −500, SOC 45,
discharge pair decoding to 2000, charge 0) the snapshot the code produces
is not the claimed one: the phase factor is the hard-coded `math.sqrt(3)`,
not 1.0, so `grid_power` is 87 (not 50) and the house load is 3287
(not 3250). -/
theorem c5_telemetry_counterexample :
    (readModbusSync (some 6)
        ⟨true, Option.none, Option.none, some (0, 30000), some 65036, some 45, some 0,
          some (0, 2000), some (0, 0)⟩).2 ≠
      .ok ⟨45, -200, 3000, 50, 3250⟩ ∧
    (readModbusSync (some 6)
        ⟨true, Option.none, Option.none, some (0, 30000), some 65036, some 45, some 0,
          some (0, 2000), some (0, 0)⟩).2 =
      .ok ⟨45, -200, 3000, 87, 3287⟩ := by
  constructor <;> decide

/-- Claim C5 amended: end-to-end telemetry decode on the claim's raw
registers, with the phase factor the code actually applies (the IEEE-754
double `math.sqrt(3)`): PV 3000 W, SOC 45, battery −200 W,
grid `round(50·√3) = 87` W, house load `round(86.6025… + 3000 + 200)
= 3287` W. -/
theorem c5_telemetry_amended :
    readModbusSync (some 6)
        ⟨true, Option.none, Option.none, some (0, 30000), some 65036, some 45, some 0,
          some (0, 2000), some (0, 0)⟩ =
      (some 6, .ok ⟨45, -200, 3000, 87, 3287⟩) := by
  decide

/-- Claim C7 counterexample: with the cache unset and the nominal-power
holding register reading 4000 — outside both scale bands — the cache is
not left unset for the cycle: the code falls back to the apparent-power
input pair 3005 (here decoding to 20000) and sets the cache to
`20000 · 0.1 / 1000 = 2`. -/
theorem c7_nominal_counterexample :
    (readModbusSync Option.none
        ⟨true, some 4000, some (0, 20000), Option.none, Option.none, Option.none,
          Option.none, Option.none, Option.none⟩).1 = some 2 ∧
    (some (2 : ℚ) ≠ (Option.none : Option ℚ)) := by
  constructor <;> decide

/-- Claim C7 amended: when the cache is unset the poll reads holding
register 10 and accepts a value in `[5000,7000]` scaled by 1/1000 or in
`[50000,70000]` scaled by 1/10000; for a value outside both bands (or a
failed read) it falls back to the input pair 3005, setting the cache to
`u32 · 0.1 / 1000` when that read succeeds and leaving it unset only when
the fallback also fails; once set, the cache is never re-read (the result
does not depend on registers 10 and 3005) and is returned unchanged. -/
theorem c7_nominal_amended :
    (∀ (d : DeviceRegs) (val : Nat), d.connected = true → d.hr10 = some val →
      ((5000 ≤ val ∧ val ≤ 7000 →
        (readModbusSync Option.none d).1 = some ((val : ℚ) / 1000)) ∧
      (50000 ≤ val ∧ val ≤ 70000 →
        (readModbusSync Option.none d).1 = some ((val : ℚ) / 10000)) ∧
      (¬(5000 ≤ val ∧ val ≤ 7000) → ¬(50000 ≤ val ∧ val ≤ 70000) →
        ((d.ir3005 = Option.none → (readModbusSync Option.none d).1 = Option.none) ∧
        (∀ w0 w1 : Nat, d.ir3005 = some (w0, w1) →
          (readModbusSync Option.none d).1 =
            some ((decode_u32_be [w0, w1] : ℚ) * (1 / 10) / 1000)))))) ∧
    (∀ d : DeviceRegs, d.connected = true → d.hr10 = Option.none →
      ((d.ir3005 = Option.none → (readModbusSync Option.none d).1 = Option.none) ∧
      (∀ w0 w1 : Nat, d.ir3005 = some (w0, w1) →
        (readModbusSync Option.none d).1 =
          some ((decode_u32_be [w0, w1] : ℚ) * (1 / 10) / 1000)))) ∧
    (∀ (q : ℚ) (d : DeviceRegs) (x : Option Nat) (y : Option (Nat × Nat)),
      (readModbusSync (some q) d).1 = some q ∧
      readModbusSync (some q) { d with hr10 := x, ir3005 := y } =
        readModbusSync (some q) d) := by
  refine ⟨?_, ?_, ?_⟩
  · intro d val hcon hhr
    simp only [readModbusSync_fst _ _ hcon]
    simp only [resolveNominal, hhr]
    refine ⟨fun hband => by rw [if_pos hband], fun hband => ?_, fun hb1 hb2 => ?_⟩
    · rw [if_neg (by omega), if_pos hband]
    · rw [if_neg hb1, if_neg hb2]
      exact ⟨fun h5 => by rw [h5], fun w0 w1 h5 => by rw [h5]⟩
  · intro d hcon hhr
    simp only [readModbusSync_fst _ _ hcon]
    simp only [resolveNominal, hhr]
    exact ⟨fun h5 => by rw [h5], fun w0 w1 h5 => by rw [h5]⟩
  · intro q d x y
    constructor
    · obtain ⟨con, hr10, i5, i1, i48, i10, i71, i78, i80⟩ := d
      rcases con
      · rfl
      rcases i1 with _ | ⟨p0, p1⟩
      · rfl
      rcases i48 with _ | g
      · rfl
      rcases i78 with _ | ⟨a, b⟩ <;> rcases i80 with _ | ⟨c, e⟩ <;> rfl
    · obtain ⟨con, hr10, i5, i1, i48, i10, i71, i78, i80⟩ := d
      rcases con <;> rfl

/-- Claim C7 witness: the amended theorem on a device whose nominal-power
register reads 6000, inside the first scale band. -/
theorem c7_nominal_witness :
    (readModbusSync Option.none
        ⟨true, some 6000, Option.none, Option.none, Option.none, Option.none, Option.none,
          Option.none, Option.none⟩).1 = some 6 := by
  have h :=
    (c7_nominal_amended.1
      ⟨true, some 6000, Option.none, Option.none, Option.none, Option.none, Option.none,
        Option.none, Option.none⟩ 6000 rfl rfl).1 (by omega)
  rw [h]
  norm_num

/-- A computation that ends in the post-action battery check can only
succeed when that check passes. -/
theorem bindE_postcheck_ok {r : Except String Unit × St} {bat1 : BatterySnapshot}
    {s2 : St} {u : Unit}
    (h : bindE r (fun _ s =>
        if batteryOnline bat1 then (Except.ok (), s)
        else (Except.error "Battery offline AFTER", s)) = (.ok u, s2)) :
    batteryOnline bat1 = true := by
  rcases r with ⟨ae, s3⟩
  rcases ae with e | a
  · simp [bindE] at h
  · simp only [bindE] at h
    by_cases hb : batteryOnline bat1 = true
    · exact hb
    · rw [if_neg (by simpa using hb)] at h
      simp at h

/-- The `try` block of an apply attempt succeeds only when the post-action
battery snapshot is online. -/
theorem tryApply_ok_online {f : Nat → Bool} {mode : String} {w base : Int}
    {bat1 : BatterySnapshot} {s s2 : St} {u : Unit}
    (h : tryApplyAndPostcheck f mode w base bat1 s = (.ok u, s2)) :
    batteryOnline bat1 = true := by
  unfold tryApplyAndPostcheck at h
  exact bindE_postcheck_ok h

/-- Masking a 16-bit-bounded non-negative integer with `0xFFFF` is the
identity. -/
theorem land_mask_eq (v : Int) (h0 : 0 ≤ v) (h1 : v < 65536) : Int.land v 65535 = v := by
  obtain ⟨n, rfl⟩ := Int.eq_ofNat_of_zero_le h0
  have h2 : n < 65536 := by exact_mod_cast h1
  have h3 : ((n : ℤ)).land 65535 = ((n &&& 65535 : ℕ) : ℤ) := rfl
  have h4 : n &&& 65535 = n := by
    have h5 := Nat.and_pow_two_sub_one_of_lt_two_pow (x := n) (n := 16) (by omega)
    simpa using h5
  rw [h3, h4]

/-- Structural case analysis of an apply attempt: either it aborts before
the `try` block (connect failure, a backup-read failure, or an offline
pre-action battery) leaving the device untouched with zero writes, or the
pre-action battery was online, the backup holds the initial register
values, and the result is the `try` block outcome, with the best-effort
rollback applied to its state on error. -/
theorem applyControlSync_cases (f : Nat → Bool) (rb : RbFaults) (mode : String)
    (w base : Int) (bat0 bat1 : BatterySnapshot) (dev : Nat → Int) :
    (∃ k, applyControlSync f rb mode w base bat0 bat1 dev = (false, ⟨dev, k, 0⟩)) ∨
    (batteryOnline bat0 = true ∧
      applyControlSync f rb mode w base bat0 bat1 dev =
        (match tryApplyAndPostcheck f mode w base bat1 ⟨dev, 8, 0⟩ with
        | (.ok _, s) => (true, s)
        | (.error _, s) =>
          (false,
            rollbackBestEffort
              ⟨dev regGridChargeEnable, dev regChargeRate, dev regT1Cfg, dev regT1End,
                dev regT2Cfg, dev regT3Cfg,
                if f 7 = true then Option.none else some (dev regDischargeRate)⟩
              rb s))) := by
  unfold applyControlSync hrReadU16 stepFault
  dsimp only
  by_cases h0 : f 0 = true
  · exact Or.inl ⟨1, by simp [h0]⟩
  simp only [h0, Bool.false_eq_true, if_false, Nat.reduceAdd]
  by_cases h1 : f 1 = true
  · exact Or.inl ⟨2, by simp [h1]⟩
  simp only [h1, Bool.false_eq_true, if_false, Nat.reduceAdd]
  by_cases h2 : f 2 = true
  · exact Or.inl ⟨3, by simp [h2]⟩
  simp only [h2, Bool.false_eq_true, if_false, Nat.reduceAdd]
  by_cases h3 : f 3 = true
  · exact Or.inl ⟨4, by simp [h3]⟩
  simp only [h3, Bool.false_eq_true, if_false, Nat.reduceAdd]
  by_cases h4 : f 4 = true
  · exact Or.inl ⟨5, by simp [h4]⟩
  simp only [h4, Bool.false_eq_true, if_false, Nat.reduceAdd]
  by_cases h5 : f 5 = true
  · exact Or.inl ⟨6, by simp [h5]⟩
  simp only [h5, Bool.false_eq_true, if_false, Nat.reduceAdd]
  by_cases h6 : f 6 = true
  · exact Or.inl ⟨7, by simp [h6]⟩
  simp only [h6, Bool.false_eq_true, if_false, Nat.reduceAdd]
  by_cases hoff : batteryOnline bat0 = false
  · exact Or.inl ⟨8, by simp [hoff]⟩
  · refine Or.inr ⟨by simpa using hoff, ?_⟩
    simp only [hoff, Bool.true_eq_false, if_false]

/-- Claim C2: no register write is issued unless the battery-online check
on the pre-action snapshot passed (an offline pre-action snapshot makes
the attempt fail with zero writes), and an apply attempt succeeds only if
the battery-online check also passes on the post-action snapshot (and the
pre-action one). -/
theorem c2_battery_gating (f : Nat → Bool) (rb : RbFaults) (mode : String) (w base : Int)
    (bat0 bat1 : BatterySnapshot) (dev : Nat → Int) :
    (batteryOnline bat0 = false →
      (applyControlSync f rb mode w base bat0 bat1 dev).1 = false ∧
      (applyControlSync f rb mode w base bat0 bat1 dev).2.wr = 0) ∧
    (0 < (applyControlSync f rb mode w base bat0 bat1 dev).2.wr →
      batteryOnline bat0 = true) ∧
    ((applyControlSync f rb mode w base bat0 bat1 dev).1 = true →
      batteryOnline bat0 = true ∧ batteryOnline bat1 = true) := by
  rcases applyControlSync_cases f rb mode w base bat0 bat1 dev with ⟨k, hk⟩ | ⟨hon, heq⟩
  · rw [hk]
    simp
  · rw [heq]
    rcases h : tryApplyAndPostcheck f mode w base bat1 ⟨dev, 8, 0⟩ with ⟨e | u, s9⟩
    · simp [hon]
    · have h1 := tryApply_ok_online h
      simp [hon, h1]

/-- Claim C2 witness: an offline pre-action snapshot (all-zero battery
reads) makes the apply attempt fail without a single register write. -/
theorem c2_battery_gating_witness :
    (applyControlSync (fun _ => false) rbNoFaults "load_first" 0 9000 ⟨0, 0, 0, 0, 0⟩
      ⟨1, 500, 45, 0, 0⟩ (fun _ => 7)).1 = false ∧
    (applyControlSync (fun _ => false) rbNoFaults "load_first" 0 9000 ⟨0, 0, 0, 0, 0⟩
      ⟨1, 500, 45, 0, 0⟩ (fun _ => 7)).2.wr = 0 :=
  (c2_battery_gating (fun _ => false) rbNoFaults "load_first" 0 9000 ⟨0, 0, 0, 0, 0⟩
    ⟨1, 500, 45, 0, 0⟩ (fun _ => 7)).1 (by decide)

/-- A fault-free rollback rewrites every backed-up register (and the
discharge rate when it was captured) with its masked backup value. -/
theorem rollback_noFaults_regs (b : Backup) (s : St) :
    (rollbackBestEffort b rbNoFaults s).dev regGridChargeEnable = Int.land b.hr3049 65535 ∧
    (rollbackBestEffort b rbNoFaults s).dev regChargeRate = Int.land b.hr3047 65535 ∧
    (rollbackBestEffort b rbNoFaults s).dev regT1Cfg = Int.land b.t1_cfg 65535 ∧
    (rollbackBestEffort b rbNoFaults s).dev regT1End = Int.land b.t1_end 65535 ∧
    (rollbackBestEffort b rbNoFaults s).dev regT2Cfg = Int.land b.t2_cfg 65535 ∧
    (rollbackBestEffort b rbNoFaults s).dev regT3Cfg = Int.land b.t3_cfg 65535 ∧
    (∀ v : Int, b.discharge_rate = some v →
      (rollbackBestEffort b rbNoFaults s).dev regDischargeRate = Int.land v 65535) := by
  unfold rollbackBestEffort rbWriteU16 rbWritePair rbNoFaults
  rcases hdr : b.discharge_rate with _ | v <;>
    simp [Function.update_apply, regGridChargeEnable, regChargeRate, regT1Cfg, regT1End,
      regT2Cfg, regT3Cfg, regDischargeRate]

/-- Claim C1: when an apply attempt for a fresh directive signature fails
anywhere after the backup was taken (any exception in APPLY or in the
post-check), the Last Applied Signature is left unchanged, and — assuming
the rollback's own best-effort writes are accepted by the device — every
register captured in the backup (grid-charge enable HR3049, charge rate
HR3047, TOU window-1 cfg and end, window-2 cfg, window-3 cfg) holds its
pre-action value again, as does the discharge rate when it was backed up
(its backup read is fault slot 7). -/
theorem c1_rollback_restores (d : Directive) (lastSig : Option (String × Int))
    (base : Int) (dev : Nat → Int) (bat0 bat1 : BatterySnapshot) (f : Nat → Bool)
    (m : String) (w : Int)
    (ht : translateDirective d = .ok (some (m, w)))
    (hnew : lastSig ≠ some (m, w))
    (hfail : (applyControlSync f rbNoFaults m w base bat0 bat1 dev).1 = false)
    (hb : ∀ r : Nat, 0 ≤ dev r ∧ dev r < 65536) :
    maybeApplySpockAction (some d) lastSig base dev bat0 bat1 f rbNoFaults =
      .ok (lastSig, (applyControlSync f rbNoFaults m w base bat0 bat1 dev).2) ∧
    (applyControlSync f rbNoFaults m w base bat0 bat1 dev).2.dev regGridChargeEnable =
      dev regGridChargeEnable ∧
    (applyControlSync f rbNoFaults m w base bat0 bat1 dev).2.dev regChargeRate =
      dev regChargeRate ∧
    (applyControlSync f rbNoFaults m w base bat0 bat1 dev).2.dev regT1Cfg = dev regT1Cfg ∧
    (applyControlSync f rbNoFaults m w base bat0 bat1 dev).2.dev regT1End = dev regT1End ∧
    (applyControlSync f rbNoFaults m w base bat0 bat1 dev).2.dev regT2Cfg = dev regT2Cfg ∧
    (applyControlSync f rbNoFaults m w base bat0 bat1 dev).2.dev regT3Cfg = dev regT3Cfg ∧
    (f 7 = false →
      (applyControlSync f rbNoFaults m w base bat0 bat1 dev).2.dev regDischargeRate =
        dev regDischargeRate) := by
  have hsig : maybeApplySpockAction (some d) lastSig base dev bat0 bat1 f rbNoFaults =
      .ok (lastSig, (applyControlSync f rbNoFaults m w base bat0 bat1 dev).2) := by
    simp only [maybeApplySpockAction, ht]
    rw [if_neg hnew]
    simp only [hfail, Bool.false_eq_true, if_false]
  refine ⟨hsig, ?_⟩
  rcases applyControlSync_cases f rbNoFaults m w base bat0 bat1 dev with ⟨k, hk⟩ | ⟨hon, heq⟩
  · rw [hk]
    exact ⟨rfl, rfl, rfl, rfl, rfl, rfl, fun _ => rfl⟩
  · rw [heq]
    rcases htr : tryApplyAndPostcheck f m w base bat1 ⟨dev, 8, 0⟩ with ⟨e | u, s9⟩
    · have hroll := rollback_noFaults_regs
        ⟨dev regGridChargeEnable, dev regChargeRate, dev regT1Cfg, dev regT1End,
          dev regT2Cfg, dev regT3Cfg,
          if f 7 = true then Option.none else some (dev regDischargeRate)⟩ s9
      dsimp only
      refine ⟨?_, ?_, ?_, ?_, ?_, ?_, ?_⟩
      · rw [hroll.1]
        exact land_mask_eq _ (hb _).1 (hb _).2
      · rw [hroll.2.1]
        exact land_mask_eq _ (hb _).1 (hb _).2
      · rw [hroll.2.2.1]
        exact land_mask_eq _ (hb _).1 (hb _).2
      · rw [hroll.2.2.2.1]
        exact land_mask_eq _ (hb _).1 (hb _).2
      · rw [hroll.2.2.2.2.1]
        exact land_mask_eq _ (hb _).1 (hb _).2
      · rw [hroll.2.2.2.2.2.1]
        exact land_mask_eq _ (hb _).1 (hb _).2
      · intro hf7
        rw [hroll.2.2.2.2.2.2 (dev regDischargeRate) (by simp [hf7])]
        exact land_mask_eq _ (hb _).1 (hb _).2
    · rw [heq, htr] at hfail
      simp at hfail

/-- Claim C1 witness: a charge directive applied to a device holding 7 in
every register, with the post-action snapshot offline: the apply fails,
the signature stays `none`, and the touched registers read 7 again. -/
theorem c1_rollback_restores_witness :
    maybeApplySpockAction (some ⟨some "ok", some "charge", .int 2000⟩) Option.none 9000
      (fun _ => 7) ⟨1, 500, 45, 0, 0⟩ ⟨0, 0, 0, 0, 0⟩ (fun _ => false) rbNoFaults =
      .ok (Option.none,
        (applyControlSync (fun _ => false) rbNoFaults "charge_grid_batfirst" 2000 9000
          ⟨1, 500, 45, 0, 0⟩ ⟨0, 0, 0, 0, 0⟩ (fun _ => 7)).2) ∧
    (applyControlSync (fun _ => false) rbNoFaults "charge_grid_batfirst" 2000 9000
      ⟨1, 500, 45, 0, 0⟩ ⟨0, 0, 0, 0, 0⟩ (fun _ => 7)).2.dev regGridChargeEnable = 7 ∧
    (applyControlSync (fun _ => false) rbNoFaults "charge_grid_batfirst" 2000 9000
      ⟨1, 500, 45, 0, 0⟩ ⟨0, 0, 0, 0, 0⟩ (fun _ => 7)).2.dev regDischargeRate = 7 := by
  have h := c1_rollback_restores ⟨some "ok", some "charge", .int 2000⟩ Option.none 9000
    (fun _ => 7) ⟨1, 500, 45, 0, 0⟩ ⟨0, 0, 0, 0, 0⟩ (fun _ => false) "charge_grid_batfirst"
    2000 (by decide) (by simp) (by decide) (fun r => ⟨by norm_num, by norm_num⟩)
  exact ⟨h.1, h.2.1, h.2.2.2.2.2.2.2 rfl⟩

/-- Claim C4: idempotence of command application.  For a directive that
translates to a fresh signature, a successful apply sets the Last Applied
Signature to that signature and runs exactly one write sequence; a second
call with an equal signature returns without any device operation (the
returned interpreter state is the untouched initial state, with zero reads
and zero writes). -/
theorem c4_idempotence (d : Directive) (lastSig : Option (String × Int)) (base : Int)
    (dev : Nat → Int) (bat0 bat1 : BatterySnapshot) (f : Nat → Bool) (rb : RbFaults)
    (m : String) (w : Int)
    (ht : translateDirective d = .ok (some (m, w)))
    (hnew : lastSig ≠ some (m, w))
    (hok : (applyControlSync f rb m w base bat0 bat1 dev).1 = true) :
    maybeApplySpockAction (some d) lastSig base dev bat0 bat1 f rb =
      .ok (some (m, w), (applyControlSync f rb m w base bat0 bat1 dev).2) ∧
    (∀ (dev2 : Nat → Int) (b0 b1 : BatterySnapshot) (f2 : Nat → Bool) (rb2 : RbFaults),
      maybeApplySpockAction (some d) (some (m, w)) base dev2 b0 b1 f2 rb2 =
        .ok (some (m, w), ⟨dev2, 0, 0⟩)) := by
  constructor
  · simp only [maybeApplySpockAction, ht]
    rw [if_neg hnew]
    simp only [hok, if_true]
  · intro dev2 b0 b1 f2 rb2
    simp only [maybeApplySpockAction, ht]
    simp

/-- Claim C4 witness: the charge directive `(charge, 2000 W)` applied twice
from a fresh state: the first call applies and commits the signature, the
second call with the committed signature touches nothing. -/
theorem c4_idempotence_witness :
    maybeApplySpockAction (some ⟨some "ok", some "charge", .int 2000⟩) Option.none 9000
      (fun _ => 7) ⟨1, 500, 45, 0, 0⟩ ⟨1, 500, 45, 0, 0⟩ (fun _ => false) rbNoFaults =
      .ok (some ("charge_grid_batfirst", 2000),
        (applyControlSync (fun _ => false) rbNoFaults "charge_grid_batfirst" 2000 9000
          ⟨1, 500, 45, 0, 0⟩ ⟨1, 500, 45, 0, 0⟩ (fun _ => 7)).2) ∧
    maybeApplySpockAction (some ⟨some "ok", some "charge", .int 2000⟩)
      (some ("charge_grid_batfirst", 2000)) 9000 (fun _ => 7) ⟨1, 500, 45, 0, 0⟩
      ⟨1, 500, 45, 0, 0⟩ (fun _ => false) rbNoFaults =
      .ok (some ("charge_grid_batfirst", 2000), ⟨fun _ => 7, 0, 0⟩) := by
  have h := c4_idempotence ⟨some "ok", some "charge", .int 2000⟩ Option.none 9000
    (fun _ => 7) ⟨1, 500, 45, 0, 0⟩ ⟨1, 500, 45, 0, 0⟩ (fun _ => false) rbNoFaults
    "charge_grid_batfirst" 2000 (by decide) (by simp) (by decide)
  exact ⟨h.1, h.2 (fun _ => 7) ⟨1, 500, 45, 0, 0⟩ ⟨1, 500, 45, 0, 0⟩ (fun _ => false)
    rbNoFaults⟩

end ClaimProofs

end Growatt
